import Mathlib

/-!
Verification of the single-vehicle VRP service in `src/app.py`.

The file shallowly embeds the core of `app.py`: `calculate_distance`,
`create_data_model`, the constraint model that `solve_vrp` installs into
OR-Tools (time dimension with slack and horizon 100000, per-node
time-window `SetRange` with swallowed exceptions, pickup/delivery
precedence), the route extraction, and the `/optimize_route` response
mapping.  The external OR-Tools search itself is modelled as an oracle:
`solve_vrp` receives an `Option Solution`, and theorems about feasible
solutions hypothesize that the oracle's solution satisfies `Feasible`,
the predicate collecting exactly the constraints the code installs.
Timestamps are the parsed epoch seconds the code computes via
`(t - datetime(1970,1,1)).total_seconds()`.
-/

/-- A geographic coordinate: the `coordinates` field `{lat, lng}` of a request
record.  The Python floats are idealized as rationals. -/
structure Coord where
  lat : ℚ
  lng : ℚ
deriving DecidableEq

instance : Inhabited Coord := ⟨⟨0, 0⟩⟩

/-- A request record as consumed by the core: coordinates plus the pickup and
delivery timestamps, already parsed to seconds since 1970-01-01 (app.py lines
29-33 parses the ISO strings and converts with `total_seconds()`).  `id` stands
for the rest of the record payload, which the core only passes through. -/
structure Request where
  id : Nat
  coordinates : Coord
  pickup : Int
  delivery : Int
deriving DecidableEq

instance : Inhabited Request := ⟨⟨0, ⟨0, 0⟩, 0, 0⟩⟩

/-- `calculate_distance` (app.py line 17): planar Euclidean distance over the
coordinate deltas. -/
noncomputable def calculate_distance (coord1 coord2 : Coord) : ℝ :=
  Real.sqrt (((coord1.lat : ℝ) - (coord2.lat : ℝ)) ^ 2 +
    ((coord1.lng : ℝ) - (coord2.lng : ℝ)) ^ 2)

/-- The distance matrix comprehension of app.py line 24. -/
noncomputable def distance_matrix_of (locations : List Coord) : List (List ℝ) :=
  locations.map (fun loc1 => locations.map (fun loc2 => calculate_distance loc1 loc2))

/-- The time-window list of app.py lines 27-34: for each request the pair
`(pickup_seconds - 3600, delivery_seconds + 3600)` in absolute epoch seconds. -/
def time_windows_of (reqs : List Request) : List (Int × Int) :=
  reqs.map (fun r => (r.pickup - 3600, r.delivery + 3600))

/-- The pair list of app.py line 37: `[(i, i + 1) for i in range(0, n, 2)]`. -/
def pickups_deliveries_of (n : Nat) : List (Nat × Nat) :=
  ((List.range n).filter (fun i => i % 2 == 0)).map (fun i => (i, i + 1))

/-- The key function of the `min` call on app.py line 40 (the parsed pickup
timestamp of request `i`). -/
def pickupKey (reqs : List Request) (i : Nat) : Int :=
  (reqs.getD i default).pickup

/-- One comparison step of Python's `min(range(n), key=...)`, which keeps the
earlier index on ties. -/
def minStep (reqs : List Request) (best i : Nat) : Nat :=
  if pickupKey reqs i < pickupKey reqs best then i else best

/-- `earliest_pickup_index` (app.py line 40): the first index attaining the
minimal pickup timestamp. -/
def earliest_pickup_index (reqs : List Request) : Nat :=
  (List.range reqs.length).foldl (minStep reqs) 0

/-- The `data` dictionary assembled by `create_data_model` (app.py lines 42-46). -/
structure DataModel where
  distance_matrix : List (List ℝ)
  time_windows : List (Int × Int)
  pickups_deliveries : List (Nat × Nat)
  num_vehicles : Nat
  depot : Nat

/-- The value `create_data_model` produces on a non-empty request list. -/
noncomputable def dataOf (reqs : List Request) : DataModel :=
  { distance_matrix := distance_matrix_of (reqs.map (fun r => r.coordinates))
    time_windows := time_windows_of reqs
    pickups_deliveries := pickups_deliveries_of reqs.length
    num_vehicles := 1
    depot := earliest_pickup_index reqs }

/-- `create_data_model` (app.py lines 21-47).  On an empty request list the
`min` call on line 40 raises `ValueError`; the exception is modelled as `none`. -/
noncomputable def create_data_model (reqs : List Request) : Option DataModel :=
  match reqs with
  | [] => none
  | _ :: _ => some (dataOf reqs)

/-- A candidate solution of the external OR-Tools search: the visiting order of
node indices starting at the vehicle start (the depot), and the value of the
cumulative time variable of each node (`times.getD node 0` is node `node`'s
`CumulVar` value). -/
structure Solution where
  route : List Nat
  times : List Int
deriving DecidableEq

/-- The domain the time `CumulVar` of a node ends up with after the `SetRange`
loop of app.py lines 96-107.  `AddDimension` (lines 83-88) bounds every cumul
variable by the horizon, `[0, 100000]`.  `SetRange(start, end)` intersects that
domain with `[start, end]` when the intersection is non-empty; otherwise the CP
solver fails, the wrapper raises, and the inner `except` of lines 105-106
swallows the exception, leaving the domain at `[0, 100000]`. -/
def effective_window (w : Int × Int) : Int × Int :=
  if max w.1 0 ≤ min w.2 100000 then (max w.1 0, min w.2 100000) else (0, 100000)

/-- Whether every pickup/delivery pair references existing nodes.  The loop of
app.py lines 114-118 calls `manager.NodeToIndex` on both members of each pair;
a node index outside `[0, n)` is invalid there, which the code's own
`try/except` around the loop (lines 113-122) anticipates by returning `[]`. -/
def pairs_valid (pairs : List (Nat × Nat)) (n : Nat) : Bool :=
  pairs.all (fun pd => decide (pd.1 < n) && decide (pd.2 < n))

/-- The constraints `solve_vrp` installs, i.e. what the external search
guarantees about any solution it reports: the single vehicle visits every node
of the model exactly once starting at the depot (no disjunctions are added, so
all nodes are mandatory); every cumulative time lies in the node's effective
window (horizon 100000 intersected with the `SetRange` window when compatible,
lines 83-107); and for every pickup/delivery pair the pickup is visited before
the delivery with `CumulVar(pickup) <= CumulVar(delivery)` (lines 114-118; the
same-vehicle constraint of line 117 is trivial with one vehicle).  The coupling
of cumulative times to arc transit costs is not needed by any claim and is left
abstract, which only weakens this predicate. -/
def Feasible (data : DataModel) (sol : Solution) : Prop :=
  sol.route.Perm (List.range data.distance_matrix.length) ∧
  sol.route.head? = some data.depot ∧
  sol.times.length = data.distance_matrix.length ∧
  (∀ node < data.distance_matrix.length,
    (effective_window (data.time_windows.getD node (0, 0))).1 ≤ sol.times.getD node 0 ∧
    sol.times.getD node 0 ≤ (effective_window (data.time_windows.getD node (0, 0))).2) ∧
  (∀ pd ∈ data.pickups_deliveries,
    sol.route.indexOf pd.1 < sol.route.indexOf pd.2 ∧
    sol.times.getD pd.1 0 ≤ sol.times.getD pd.2 0)

instance decFeasible (data : DataModel) (sol : Solution) : Decidable (Feasible data sol) := by
  unfold Feasible
  infer_instance

/-- `solve_vrp` (app.py lines 50-142).  The construction steps that cannot fail
on the embedded data (manager, model, callback, dimension) are elided; the pair
loop is the one assembly step that can raise (invalid node index passed to
`NodeToIndex`/`AddPickupAndDelivery`), and its `except` returns `[]` (line 122).
The external search is the `oracle` argument: `none` models
`SolveWithParameters` finding nothing within its budget (lines 130-132 return
`[]`), `some sol` models it reporting `sol`, and the route walk of lines
135-141 maps each visited node back to its request record. -/
noncomputable def solve_vrp (reqs : List Request) (oracle : Option Solution) :
    Option (List Request) :=
  (create_data_model reqs).map (fun data =>
    if pairs_valid data.pickups_deliveries data.distance_matrix.length then
      match oracle with
      | none => []
      | some sol => sol.route.map (fun node => reqs.getD node default)
    else [])

/-- The HTTP response of `/optimize_route`, as status code plus body. -/
inductive Response where
  | ok : List Request → Response
  | error : Nat → String → Response
deriving DecidableEq

/-- `optimize_route` (app.py lines 150-160): an exception propagating out of
the solve (modelled: `solve_vrp = none`, the `ValueError` of Python's `min` on
an empty list) becomes a 400 with `str(e)`; an empty route becomes a 400 with
the fixed message; otherwise the reordered records are returned. -/
noncomputable def optimize_route (reqs : List Request) (oracle : Option Solution) : Response :=
  match solve_vrp reqs oracle with
  | none => Response.error 400 "min() arg is an empty sequence"
  | some [] => Response.error 400 "No valid route found with the given constraints."
  | some out => Response.ok out

/-- Matrix entry accessor for the nested-list distance matrix. -/
noncomputable def matEntry (m : List (List ℝ)) (i j : Nat) : ℝ :=
  (m.getD i []).getD j 0

/-- Modelled from the spec: the TimeWindowDeriver of spec sections 2 and 4.2,
which is absent from the code as described.  The earliest pickup timestamp is
the reference origin and each window is relative to it:
`[pickup - origin - slack, delivery - origin + slack]` with slack 3600. -/
def spec_relative_time_windows (reqs : List Request) : List (Int × Int) :=
  let origin := pickupKey reqs (earliest_pickup_index reqs)
  reqs.map (fun r => (r.pickup - origin - 3600, r.delivery - origin + 3600))

/-- Concrete two-request instance with small timestamps (windows compatible
with the horizon): pickups at 3600 and 7200 epoch seconds. -/
def rA : Request := ⟨1, ⟨0, 0⟩, 3600, 3600⟩

def rB : Request := ⟨2, ⟨3, 4⟩, 7200, 7200⟩

def reqs2 : List Request := [rA, rB]

/-- A feasible solution for `reqs2`: visit node 0 then node 1, at times 0 and
3600. -/
def sol2 : Solution := ⟨[0, 1], [0, 3600]⟩

/-- Concrete two-request instance with realistic 2023-epoch timestamps
(≈ 1.7e9 seconds), far above the 100000 horizon. -/
def rE0 : Request := ⟨1, ⟨0, 0⟩, 1700000000, 1700003600⟩

def rE1 : Request := ⟨2, ⟨1, 1⟩, 1700000100, 1700007200⟩

def reqsE : List Request := [rE0, rE1]

/-- A solution for `reqsE` with both cumulative times 0: feasible, because both
`SetRange` calls fail (window bounds ≈ 1.7e9 vs horizon 100000) and are
swallowed, leaving the cumul domains at `[0, 100000]`. -/
def solE : Solution := ⟨[0, 1], [0, 0]⟩

/-- A single request record (Scenario C of the spec). -/
def reqSolo : Request := ⟨7, ⟨2, 3⟩, 1700000000, 1700003600⟩

/-- The one-node route the spec expects for a single request. -/
def solSolo : Solution := ⟨[0], [0]⟩

/-- A request whose delivery timestamp precedes its pickup by more than two
hours (10000 seconds). -/
def reqLate : Request := ⟨3, ⟨0, 0⟩, 10000, 0⟩

/-- A third request, to form an odd-length input. -/
def rC : Request := ⟨3, ⟨1, 0⟩, 9000, 9000⟩

def reqsOdd : List Request := [rA, rB, rC]

/-- An arbitrary solution candidate for `reqsOdd`. -/
def solOdd : Solution := ⟨[0, 1, 2], [0, 3600, 5400]⟩

theorem create_data_model_nil : create_data_model [] = none := rfl

theorem create_data_model_eq (reqs : List Request) (hne : reqs ≠ []) :
    create_data_model reqs = some (dataOf reqs) := by
  cases reqs with
  | nil => exact absurd rfl hne
  | cons a t => rfl

theorem dataOf_matrix_length (reqs : List Request) :
    (dataOf reqs).distance_matrix.length = reqs.length := by
  simp [dataOf, distance_matrix_of]

theorem dataOf_pairs (reqs : List Request) :
    (dataOf reqs).pickups_deliveries = pickups_deliveries_of reqs.length := rfl

theorem mem_pickups_deliveries (n : Nat) (pd : Nat × Nat) :
    pd ∈ pickups_deliveries_of n ↔ ∃ i, i < n ∧ i % 2 = 0 ∧ pd = (i, i + 1) := by
  constructor
  · intro h
    rcases List.mem_map.1 h with ⟨i, hi, rfl⟩
    rcases List.mem_filter.1 hi with ⟨hir, hieven⟩
    exact ⟨i, List.mem_range.1 hir, by simpa using hieven, rfl⟩
  · rintro ⟨i, hin, hev, rfl⟩
    exact List.mem_map.2 ⟨i, List.mem_filter.2 ⟨List.mem_range.2 hin, by simpa using hev⟩, rfl⟩

theorem pairs_valid_iff (n : Nat) :
    pairs_valid (pickups_deliveries_of n) n = true ↔ n % 2 = 0 := by
  constructor
  · intro h
    by_contra hodd
    have h1 : 1 ≤ n := by omega
    have hmem : (n - 1, n) ∈ pickups_deliveries_of n :=
      (mem_pickups_deliveries n _).2 ⟨n - 1, by omega, by omega, by rw [Nat.sub_add_cancel h1]⟩
    have h2 := List.all_eq_true.1 h _ hmem
    simp only [Bool.and_eq_true, decide_eq_true_eq] at h2
    omega
  · intro hev
    refine List.all_eq_true.2 ?_
    intro pd hpd
    rcases (mem_pickups_deliveries n pd).1 hpd with ⟨i, hin, hiev, rfl⟩
    simp only [Bool.and_eq_true, decide_eq_true_eq]
    omega

theorem pairs_valid_dataOf (reqs : List Request) :
    pairs_valid (dataOf reqs).pickups_deliveries (dataOf reqs).distance_matrix.length =
      pairs_valid (pickups_deliveries_of reqs.length) reqs.length := by
  rw [dataOf_pairs, dataOf_matrix_length]

theorem foldl_minStep_le (reqs : List Request) (l : List Nat) (b : Nat) :
    pickupKey reqs (l.foldl (minStep reqs) b) ≤ pickupKey reqs b ∧
    ∀ i ∈ l, pickupKey reqs (l.foldl (minStep reqs) b) ≤ pickupKey reqs i := by
  induction l generalizing b with
  | nil => simp
  | cons a t ih =>
    have hstep1 : pickupKey reqs (minStep reqs b a) ≤ pickupKey reqs b := by
      unfold minStep; split <;> omega
    have hstep2 : pickupKey reqs (minStep reqs b a) ≤ pickupKey reqs a := by
      unfold minStep; split <;> omega
    rw [List.foldl_cons]
    rcases ih (minStep reqs b a) with ⟨ih1, ih2⟩
    refine ⟨le_trans ih1 hstep1, ?_⟩
    intro i hi
    rcases List.mem_cons.1 hi with rfl | hit
    · exact le_trans ih1 hstep2
    · exact ih2 i hit

theorem foldl_minStep_mem (reqs : List Request) (l : List Nat) (b : Nat) :
    l.foldl (minStep reqs) b = b ∨ l.foldl (minStep reqs) b ∈ l := by
  induction l generalizing b with
  | nil => simp
  | cons a t ih =>
    rw [List.foldl_cons]
    rcases ih (minStep reqs b a) with h | h
    · rw [h]
      unfold minStep
      split
      · exact Or.inr (List.mem_cons_self a t)
      · exact Or.inl rfl
    · exact Or.inr (List.mem_cons_of_mem a h)

theorem earliest_pickup_index_lt (reqs : List Request) (hne : reqs ≠ []) :
    earliest_pickup_index reqs < reqs.length := by
  have hpos : 0 < reqs.length := List.length_pos.2 hne
  rcases foldl_minStep_mem reqs (List.range reqs.length) 0 with h | h
  · rw [earliest_pickup_index, h]
    exact hpos
  · exact List.mem_range.1 h

theorem earliest_pickup_index_min (reqs : List Request) (r : Request) (hr : r ∈ reqs) :
    pickupKey reqs (earliest_pickup_index reqs) ≤ r.pickup := by
  rcases List.mem_iff_getElem.1 hr with ⟨i, hi, rfl⟩
  have h := (foldl_minStep_le reqs (List.range reqs.length) 0).2 i (List.mem_range.2 hi)
  have hkey : pickupKey reqs i = reqs[i].pickup := by
    unfold pickupKey
    rw [List.getD_eq_getElem reqs default hi]
  rw [earliest_pickup_index]
  omega

theorem map_getD_range {α : Type} [Inhabited α] (l : List α) :
    (List.range l.length).map (fun i => l.getD i default) = l := by
  induction l with
  | nil => simp
  | cons a t ih =>
    rw [List.length_cons, List.range_succ_eq_map, List.map_cons, List.map_map]
    have hcomp : ((fun i => (a :: t).getD i default) ∘ Nat.succ) =
        fun i => t.getD i default := by
      funext i
      simp [List.getD_cons_succ]
    rw [List.getD_cons_zero, hcomp, ih]

theorem getD_map_of_lt {α β : Type} (l : List α) (f : α → β) (i : Nat) (d : β) (e : α)
    (h : i < l.length) :
    (l.map f).getD i d = f (l.getD i e) := by
  rw [List.getD_eq_getElem _ d (by simpa using h), List.getD_eq_getElem _ e h,
    List.getElem_map]

theorem extraction_perm (reqs : List Request) (route : List Nat)
    (hperm : route.Perm (List.range reqs.length)) :
    (route.map (fun node => reqs.getD node default)).Perm reqs := by
  have h1 := hperm.map (fun node => reqs.getD node default)
  rwa [map_getD_range] at h1

theorem optimize_route_empty (reqs : List Request) (oracle : Option Solution)
    (h : solve_vrp reqs oracle = some []) :
    optimize_route reqs oracle =
      Response.error 400 "No valid route found with the given constraints." := by
  unfold optimize_route
  rw [h]

theorem solve_vrp_reqs_ne_nil (reqs : List Request) (oracle : Option Solution)
    (out : List Request) (hout : solve_vrp reqs oracle = some out) : reqs ≠ [] := by
  intro h0
  subst h0
  rw [solve_vrp.eq_def, create_data_model_nil] at hout
  exact Option.noConfusion hout

theorem solve_vrp_eq (reqs : List Request) (oracle : Option Solution) (hne : reqs ≠ []) :
    solve_vrp reqs oracle = some (
      if pairs_valid (dataOf reqs).pickups_deliveries (dataOf reqs).distance_matrix.length then
        match oracle with
        | none => []
        | some sol => sol.route.map (fun node => reqs.getD node default)
      else []) := by
  rw [solve_vrp.eq_def, create_data_model_eq reqs hne, Option.map_some']

/-- C1: the claim is refuted on the code by this concrete run.  Two requests
with 2023 timestamps yield derived windows around 1.7e9 epoch seconds; the time
dimension is capped at 100000, every `SetRange` fails and is silently swallowed
(app.py lines 102-106), so the solution assigning cumulative time 0 to node 0
is feasible and is returned as a route, yet time 0 lies strictly below the
node's derived window lower bound `pickup_seconds - 3600`. -/
theorem C1_window_violation :
    Feasible (dataOf reqsE) solE ∧
    solve_vrp reqsE (some solE) = some [rE0, rE1] ∧
    solE.times.getD 0 0 < ((dataOf reqsE).time_windows.getD 0 (0, 0)).1 := by
  refine ⟨by decide, by decide, by decide⟩

/-- C3 (counterexample): with a single request, `create_data_model` builds the
precedence pair `(0, 1)` although the model has exactly one node, so the
delivery index does not reference a valid node (`1 < 1` is false). -/
theorem C3_invalid_pair_counterexample :
    (create_data_model [reqSolo]).map (fun d => d.pickups_deliveries) = some [(0, 1)] ∧
    (create_data_model [reqSolo]).map (fun d => d.distance_matrix.length) = some 1 ∧
    ¬(1 < 1) := by
  refine ⟨by decide, by decide, by decide⟩

/-- C3 (amended): for every non-empty request list of even length, every
precedence pair built by `create_data_model` references valid nodes and no node
appears in two different pairs (for odd length the final pair is `(n-1, n)`,
whose delivery index `n` is out of range, as the counterexample shows). -/
theorem C3_pairs_valid_even (reqs : List Request) (hne : reqs ≠ [])
    (heven : reqs.length % 2 = 0) :
    create_data_model reqs = some (dataOf reqs) ∧
    (∀ pd ∈ (dataOf reqs).pickups_deliveries,
      pd.1 < (dataOf reqs).distance_matrix.length ∧
      pd.2 < (dataOf reqs).distance_matrix.length) ∧
    (∀ pd ∈ (dataOf reqs).pickups_deliveries, ∀ qd ∈ (dataOf reqs).pickups_deliveries,
      pd ≠ qd → pd.1 ≠ qd.1 ∧ pd.1 ≠ qd.2 ∧ pd.2 ≠ qd.1 ∧ pd.2 ≠ qd.2) := by
  refine ⟨create_data_model_eq reqs hne, ?_, ?_⟩
  · intro pd hpd
    rw [dataOf_matrix_length]
    rw [dataOf_pairs] at hpd
    rcases (mem_pickups_deliveries _ _).1 hpd with ⟨i, hin, hev2, rfl⟩
    constructor
    · show i < reqs.length
      omega
    · show i + 1 < reqs.length
      omega
  · intro pd hpd qd hqd hneq
    rw [dataOf_pairs] at hpd hqd
    rcases (mem_pickups_deliveries _ _).1 hpd with ⟨i, hin, hev2, rfl⟩
    rcases (mem_pickups_deliveries _ _).1 hqd with ⟨j, hjn, hev3, rfl⟩
    have hij : i ≠ j := by
      intro h
      exact hneq (by rw [h])
    refine ⟨?_, ?_, ?_, ?_⟩
    · show i ≠ j
      omega
    · show i ≠ j + 1
      omega
    · show i + 1 ≠ j
      omega
    · show i + 1 ≠ j + 1
      omega

/-- C4: with a single request the code does not produce the one-node route the
spec's Scenario C expects.  `create_data_model` emits the precedence pair
`(0, 1)` for a one-node model; the constraint loop of app.py lines 114-118 then
hands the nonexistent node 1 to `manager.NodeToIndex`, the surrounding
`except` (line 122) turns the failure into `[]`, and even when the search would
report the ideal one-node solution the result is the empty route (mapped to a
400 error), not `[reqSolo]`. -/
theorem C4_single_request_fault :
    (create_data_model [reqSolo]).map (fun d => d.pickups_deliveries) = some [(0, 1)] ∧
    solve_vrp [reqSolo] (some solSolo) = some [] ∧
    solve_vrp [reqSolo] none = some [] ∧
    (some ([] : List Request) ≠ some [reqSolo]) := by
  refine ⟨by decide, by decide, by decide, by decide⟩

/-- C5: the claim is refuted on the code by this concrete run.  The windows
`create_data_model` stores are absolute epoch-second bounds
`(pickup - 3600, delivery + 3600)`; they differ from the spec's relative
windows anchored at the earliest pickup (`spec_relative_time_windows`).  The
earliest pickup determines only the depot index in the code. -/
theorem C5_absolute_windows :
    (create_data_model reqsE).map (fun d => d.time_windows) =
      some [(1699996400, 1700007200), (1699996500, 1700010800)] ∧
    spec_relative_time_windows reqsE = [(-3600, 7200), (-3500, 10800)] ∧
    (create_data_model reqsE).map (fun d => d.time_windows) ≠
      some (spec_relative_time_windows reqsE) := by
  refine ⟨by decide, by decide, by decide⟩

/-- C6 (counterexample): a model-construction fault (odd-length input, whose
pair loop faults on an out-of-range node) and an infeasible search (the solver
reports no solution) produce the identical user-visible response, so the two
failure kinds are collapsed, not distinct. -/
theorem C6_collapse_counterexample :
    optimize_route reqsOdd (some solOdd) =
      Response.error 400 "No valid route found with the given constraints." ∧
    optimize_route reqs2 none =
      Response.error 400 "No valid route found with the given constraints." ∧
    optimize_route reqsOdd (some solOdd) = optimize_route reqs2 none := by
  refine ⟨by decide, by decide, by decide⟩

/-- C8 (counterexample): a request whose delivery timestamp precedes its pickup
by 10000 seconds (more than two hours) yields the derived window
`(6400, 3600)`, which violates the invariant `earliest ≤ latest`. -/
theorem C8_window_counterexample :
    (create_data_model [reqLate]).map (fun d => d.time_windows) = some [(6400, 3600)] ∧
    ¬((6400 : Int) ≤ 3600) := by
  refine ⟨by decide, by decide⟩

/-- C8 (amended): the derived window of request `i` satisfies
`earliest ≤ latest` whenever the pickup timestamp exceeds the delivery
timestamp by at most 7200 seconds (two hours); the counterexample shows the
invariant fails beyond that bound. -/
theorem C8_window_order (reqs : List Request) (i : Nat) (hi : i < reqs.length)
    (h : (reqs.getD i default).pickup - (reqs.getD i default).delivery ≤ 7200) :
    create_data_model reqs = some (dataOf reqs) ∧
    ((dataOf reqs).time_windows.getD i (0, 0)).1 ≤
      ((dataOf reqs).time_windows.getD i (0, 0)).2 := by
  have hne : reqs ≠ [] := by
    intro h0
    subst h0
    simp at hi
  refine ⟨create_data_model_eq reqs hne, ?_⟩
  have hw : (dataOf reqs).time_windows.getD i (0, 0) =
      ((reqs.getD i default).pickup - 3600, (reqs.getD i default).delivery + 3600) := by
    show (time_windows_of reqs).getD i (0, 0) = _
    unfold time_windows_of
    rw [getD_map_of_lt reqs _ i (0, 0) default hi]
  rw [hw]
  dsimp only
  omega

/-- C2: for every input on which `solve_vrp` returns a feasible (non-empty)
route, and every precedence pair the model builds, the pickup's position in the
output visiting order is strictly before the delivery's, the pickup's
cumulative time is at most the delivery's, and those positions of the output
list carry exactly the pickup and delivery request records. -/
theorem C2_precedence (reqs : List Request) (sol : Solution) (out : List Request)
    (hfeas : Feasible (dataOf reqs) sol)
    (hout : solve_vrp reqs (some sol) = some out) (hne2 : out ≠ [])
    (pd : Nat × Nat) (hpd : pd ∈ (dataOf reqs).pickups_deliveries) :
    sol.route.indexOf pd.1 < sol.route.indexOf pd.2 ∧
    sol.times.getD pd.1 0 ≤ sol.times.getD pd.2 0 ∧
    out.getD (sol.route.indexOf pd.1) default = reqs.getD pd.1 default ∧
    out.getD (sol.route.indexOf pd.2) default = reqs.getD pd.2 default := by
  have hne : reqs ≠ [] := solve_vrp_reqs_ne_nil reqs (some sol) out hout
  rw [solve_vrp_eq reqs (some sol) hne] at hout
  have hout' := Option.some.inj hout
  by_cases hv : pairs_valid (dataOf reqs).pickups_deliveries
      (dataOf reqs).distance_matrix.length = true
  case neg =>
    rw [if_neg hv] at hout'
    exact absurd hout'.symm hne2
  rw [if_pos hv] at hout'
  have hmap : sol.route.map (fun node => reqs.getD node default) = out := hout'
  have hpair := hfeas.2.2.2.2 pd hpd
  have hvalid := List.all_eq_true.1 hv pd hpd
  simp only [Bool.and_eq_true, decide_eq_true_eq] at hvalid
  rw [dataOf_matrix_length] at hvalid
  have hperm : sol.route.Perm (List.range reqs.length) := by
    have h1 := hfeas.1
    rwa [dataOf_matrix_length] at h1
  have hmem1 : pd.1 ∈ sol.route := hperm.mem_iff.2 (List.mem_range.2 hvalid.1)
  have hmem2 : pd.2 ∈ sol.route := hperm.mem_iff.2 (List.mem_range.2 hvalid.2)
  have hidx1 : sol.route.indexOf pd.1 < sol.route.length := List.indexOf_lt_length.2 hmem1
  have hidx2 : sol.route.indexOf pd.2 < sol.route.length := List.indexOf_lt_length.2 hmem2
  have hget1 : sol.route.getD (sol.route.indexOf pd.1) 0 = pd.1 := by
    rw [List.getD_eq_getElem _ 0 hidx1]
    exact List.getElem_indexOf hidx1
  have hget2 : sol.route.getD (sol.route.indexOf pd.2) 0 = pd.2 := by
    rw [List.getD_eq_getElem _ 0 hidx2]
    exact List.getElem_indexOf hidx2
  refine ⟨hpair.1, hpair.2, ?_, ?_⟩
  · rw [← hmap, getD_map_of_lt sol.route _ _ default 0 hidx1, hget1]
  · rw [← hmap, getD_map_of_lt sol.route _ _ default 0 hidx2, hget2]

/-- C6 (amended): a model-construction fault (odd request count, whose pair
loop hands an out-of-range node to the manager) and an infeasible search are
both reported to the caller as the same user-visible 400 failure with the same
message; neither is turned into a success, but the two kinds are
indistinguishable to the caller. -/
theorem C6_collapsed_failures (reqs : List Request) (oracle : Option Solution)
    (hne : reqs ≠ []) (hfail : reqs.length % 2 = 1 ∨ oracle = none) :
    optimize_route reqs oracle =
      Response.error 400 "No valid route found with the given constraints." := by
  apply optimize_route_empty
  rw [solve_vrp_eq reqs oracle hne]
  rcases hfail with hodd | rfl
  · have hv : ¬(pairs_valid (dataOf reqs).pickups_deliveries
        (dataOf reqs).distance_matrix.length = true) := by
      rw [pairs_valid_dataOf, pairs_valid_iff]
      omega
    rw [if_neg hv]
  · by_cases hv : pairs_valid (dataOf reqs).pickups_deliveries
        (dataOf reqs).distance_matrix.length = true
    · rw [if_pos hv]
    · rw [if_neg hv]

/-- C7: whenever the search reports no solution the result is the empty list;
an empty result is mapped by the endpoint to the explicit 400 failure response;
and a non-empty result is a complete route — a permutation of all input
records — never a partial ordering.  The hypothesis on the oracle is the
guarantee of the external engine: any solution it reports satisfies the
installed constraints. -/
theorem C7_complete_or_failure (reqs : List Request) (oracle : Option Solution)
    (out : List Request)
    (hsol : ∀ sol, oracle = some sol → Feasible (dataOf reqs) sol)
    (hout : solve_vrp reqs oracle = some out) :
    (oracle = none → out = []) ∧
    (out = [] → optimize_route reqs oracle =
      Response.error 400 "No valid route found with the given constraints.") ∧
    (out ≠ [] → out.Perm reqs) := by
  have hne : reqs ≠ [] := solve_vrp_reqs_ne_nil reqs oracle out hout
  have hout0 := hout
  rw [solve_vrp_eq reqs oracle hne] at hout0
  have hout' := Option.some.inj hout0
  refine ⟨?_, fun h0 => optimize_route_empty reqs oracle (h0 ▸ hout), ?_⟩
  · rintro rfl
    by_cases hv : pairs_valid (dataOf reqs).pickups_deliveries
        (dataOf reqs).distance_matrix.length = true
    · rw [if_pos hv] at hout'
      exact hout'.symm
    · rw [if_neg hv] at hout'
      exact hout'.symm
  · intro hne2
    by_cases hv : pairs_valid (dataOf reqs).pickups_deliveries
        (dataOf reqs).distance_matrix.length = true
    · rw [if_pos hv] at hout'
      cases oracle with
      | none => exact absurd hout'.symm hne2
      | some sol =>
        have hfeas := hsol sol rfl
        have hperm : sol.route.Perm (List.range reqs.length) := by
          have h1 := hfeas.1
          rwa [dataOf_matrix_length] at h1
        rw [← hout']
        exact extraction_perm reqs sol.route hperm
    · rw [if_neg hv] at hout'
      exact absurd hout'.symm hne2

/-- C10: every non-empty result of `solve_vrp` is a permutation of the input
request records (each record exactly once, reordered into the visiting order of
the solution's route), and its first element is the depot request — the one
with the earliest pickup timestamp. -/
theorem C10_permutation (reqs : List Request) (sol : Solution) (out : List Request)
    (hfeas : Feasible (dataOf reqs) sol)
    (hout : solve_vrp reqs (some sol) = some out) (hne2 : out ≠ []) :
    out.Perm reqs ∧
    out.head? = some (reqs.getD (dataOf reqs).depot default) ∧
    ∀ r ∈ reqs, (reqs.getD (dataOf reqs).depot default).pickup ≤ r.pickup := by
  have hne : reqs ≠ [] := solve_vrp_reqs_ne_nil reqs (some sol) out hout
  rw [solve_vrp_eq reqs (some sol) hne] at hout
  have hout' := Option.some.inj hout
  by_cases hv : pairs_valid (dataOf reqs).pickups_deliveries
      (dataOf reqs).distance_matrix.length = true
  case neg =>
    rw [if_neg hv] at hout'
    exact absurd hout'.symm hne2
  rw [if_pos hv] at hout'
  have hmap : sol.route.map (fun node => reqs.getD node default) = out := hout'
  have hperm : sol.route.Perm (List.range reqs.length) := by
    have h1 := hfeas.1
    rwa [dataOf_matrix_length] at h1
  refine ⟨?_, ?_, ?_⟩
  · rw [← hmap]
    exact extraction_perm reqs sol.route hperm
  · rw [← hmap, List.head?_map]
    have hhead := hfeas.2.1
    rw [hhead]
    rfl
  · intro r hr
    have hdep : (dataOf reqs).depot = earliest_pickup_index reqs := rfl
    have hmin := earliest_pickup_index_min reqs r hr
    unfold pickupKey at hmin
    rw [hdep]
    exact hmin

/-- C9: the distance matrix built by `create_data_model` is symmetric, has a
zero diagonal, and every entry is non-negative. -/
theorem C9_distance_matrix (reqs : List Request) (i j : Nat)
    (hi : i < reqs.length) (hj : j < reqs.length) :
    create_data_model reqs = some (dataOf reqs) ∧
    matEntry (dataOf reqs).distance_matrix i j = matEntry (dataOf reqs).distance_matrix j i ∧
    matEntry (dataOf reqs).distance_matrix i i = 0 ∧
    0 ≤ matEntry (dataOf reqs).distance_matrix i j := by
  have hne : reqs ≠ [] := by
    intro h0
    subst h0
    simp at hi
  have hmat : ∀ a b : Nat, a < reqs.length → b < reqs.length →
      matEntry (dataOf reqs).distance_matrix a b =
        calculate_distance ((reqs.map (fun r => r.coordinates)).getD a default)
          ((reqs.map (fun r => r.coordinates)).getD b default) := by
    intro a b ha hb
    show matEntry (distance_matrix_of (reqs.map (fun r => r.coordinates))) a b = _
    unfold matEntry distance_matrix_of
    have hla : a < (reqs.map (fun r => r.coordinates)).length := by simpa using ha
    have hlb : b < (reqs.map (fun r => r.coordinates)).length := by simpa using hb
    rw [getD_map_of_lt _ _ a [] default hla, getD_map_of_lt _ _ b 0 default hlb]
  refine ⟨create_data_model_eq reqs hne, ?_, ?_, ?_⟩
  · rw [hmat i j hi hj, hmat j i hj hi]
    unfold calculate_distance
    congr 1
    ring
  · rw [hmat i i hi hi]
    unfold calculate_distance
    simp
  · rw [hmat i j hi hj]
    exact Real.sqrt_nonneg _

/-- Witness for C2 at the concrete two-request instance `reqs2` with the
feasible solution `sol2` and the pair `(0, 1)`. -/
theorem C2_precedence_witness :
    Feasible (dataOf reqs2) sol2 ∧
    solve_vrp reqs2 (some sol2) = some [rA, rB] ∧
    ([rA, rB] : List Request) ≠ [] ∧
    ((0, 1) : Nat × Nat) ∈ (dataOf reqs2).pickups_deliveries ∧
    (sol2.route.indexOf 0 < sol2.route.indexOf 1 ∧
     sol2.times.getD 0 0 ≤ sol2.times.getD 1 0 ∧
     [rA, rB].getD (sol2.route.indexOf 0) default = reqs2.getD 0 default ∧
     [rA, rB].getD (sol2.route.indexOf 1) default = reqs2.getD 1 default) :=
  ⟨by decide, by decide, by decide, by decide,
   C2_precedence reqs2 sol2 [rA, rB] (by decide) (by decide) (by decide) (0, 1) (by decide)⟩

/-- Witness for the amended C3 at the concrete even-length instance `reqs2`. -/
theorem C3_pairs_valid_even_witness :
    reqs2 ≠ [] ∧ reqs2.length % 2 = 0 ∧
    (create_data_model reqs2 = some (dataOf reqs2) ∧
     (∀ pd ∈ (dataOf reqs2).pickups_deliveries,
       pd.1 < (dataOf reqs2).distance_matrix.length ∧
       pd.2 < (dataOf reqs2).distance_matrix.length) ∧
     (∀ pd ∈ (dataOf reqs2).pickups_deliveries, ∀ qd ∈ (dataOf reqs2).pickups_deliveries,
       pd ≠ qd → pd.1 ≠ qd.1 ∧ pd.1 ≠ qd.2 ∧ pd.2 ≠ qd.1 ∧ pd.2 ≠ qd.2)) :=
  ⟨by decide, by decide, C3_pairs_valid_even reqs2 (by decide) (by decide)⟩

/-- Witness for the amended C6: an odd-length input with an available solution
candidate is reported with exactly the generic 400 failure. -/
theorem C6_collapsed_failures_witness :
    reqsOdd ≠ [] ∧ (reqsOdd.length % 2 = 1 ∨ (some solOdd : Option Solution) = none) ∧
    optimize_route reqsOdd (some solOdd) =
      Response.error 400 "No valid route found with the given constraints." :=
  ⟨by decide, Or.inl (by decide),
   C6_collapsed_failures reqsOdd (some solOdd) (by decide) (Or.inl (by decide))⟩

/-- Witness for C7 at `reqs2` with the feasible solution `sol2`. -/
theorem C7_complete_or_failure_witness :
    solve_vrp reqs2 (some sol2) = some [rA, rB] ∧
    (((some sol2 : Option Solution) = none → ([rA, rB] : List Request) = []) ∧
     (([rA, rB] : List Request) = [] → optimize_route reqs2 (some sol2) =
       Response.error 400 "No valid route found with the given constraints.") ∧
     (([rA, rB] : List Request) ≠ [] → ([rA, rB] : List Request).Perm reqs2)) :=
  ⟨by decide,
   C7_complete_or_failure reqs2 (some sol2) [rA, rB]
     (fun sol h => by
       injection h with h2
       rw [← h2]
       decide)
     (by decide)⟩

/-- Witness for the amended C8 at `reqs2`, index 0. -/
theorem C8_window_order_witness :
    0 < reqs2.length ∧
    (reqs2.getD 0 default).pickup - (reqs2.getD 0 default).delivery ≤ 7200 ∧
    (create_data_model reqs2 = some (dataOf reqs2) ∧
     ((dataOf reqs2).time_windows.getD 0 (0, 0)).1 ≤
       ((dataOf reqs2).time_windows.getD 0 (0, 0)).2) :=
  ⟨by decide, by decide, C8_window_order reqs2 0 (by decide) (by decide)⟩

/-- Witness for C9 at `reqs2`, indices 0 and 1. -/
theorem C9_distance_matrix_witness :
    0 < reqs2.length ∧ 1 < reqs2.length ∧
    (create_data_model reqs2 = some (dataOf reqs2) ∧
     matEntry (dataOf reqs2).distance_matrix 0 1 = matEntry (dataOf reqs2).distance_matrix 1 0 ∧
     matEntry (dataOf reqs2).distance_matrix 0 0 = 0 ∧
     0 ≤ matEntry (dataOf reqs2).distance_matrix 0 1) :=
  ⟨by decide, by decide, C9_distance_matrix reqs2 0 1 (by decide) (by decide)⟩

/-- Witness for C10 at `reqs2` with the feasible solution `sol2`. -/
theorem C10_permutation_witness :
    Feasible (dataOf reqs2) sol2 ∧
    solve_vrp reqs2 (some sol2) = some [rA, rB] ∧
    ([rA, rB] : List Request) ≠ [] ∧
    (([rA, rB] : List Request).Perm reqs2 ∧
     ([rA, rB] : List Request).head? = some (reqs2.getD (dataOf reqs2).depot default) ∧
     ∀ r ∈ reqs2, (reqs2.getD (dataOf reqs2).depot default).pickup ≤ r.pickup) :=
  ⟨by decide, by decide, by decide,
   C10_permutation reqs2 sol2 [rA, rB] (by decide) (by decide) (by decide)⟩
